import Mathlib

/-!
Verification of the routing-and-resilience layer of the `bifrost` service
(circuit breaker, dynamic provider router, orchestrator).

Shallow embedding conventions:
* Python wall-clock timestamps and durations (floats, in seconds) are modeled
  as integers at millisecond granularity; every method that reads
  `time.time()` takes an explicit `now : Int` argument.
* Python dollar amounts (floats) are modeled as integers in micro-USD;
  derived per-request cost estimates are kept exact in nano-USD
  (`(tokens/1000) * cost_usd = tokens * cost_micro` nano-USD).
* Python `str` payloads that the code inspects character by character are
  modeled as `List Char` (`PyStr`); identifier-like strings (names, provider
  ids) stay `String`.
* Exceptions are values carrying the list of class names they are instances
  of, so `isinstance(exc, tuple_of_classes)` becomes list intersection.
* Mutation is explicit state passing: each method returns the updated object.
-/

/-- Python `str` payload, as a list of characters. -/
abbrev PyStr := List Char

/-- Python `text.lower()` (ASCII case folding; the Korean marker strings are
case-invariant, so this matches the source's use). -/
def pyLower (s : PyStr) : PyStr := s.map Char.toLower

/-- Python `text.strip()`: drop leading and trailing whitespace. -/
def pyStrip (s : PyStr) : PyStr :=
  ((s.dropWhile Char.isWhitespace).reverse.dropWhile Char.isWhitespace).reverse

/-- Python `needle in hay` for strings: substring containment. -/
def pyContains (hay needle : PyStr) : Bool :=
  hay.tails.any (fun t => needle.isPrefixOf t)

/-- A Python exception value: the class names it is an instance of
(its class and all ancestors), plus a message. -/
structure PyException where
  classes : List String
  msg : String := ""
deriving DecidableEq, Repr

/-- Python `isinstance(exc, tuple_of_classes)`. -/
def isinstanceOf (e : PyException) (tuple : List String) : Bool :=
  tuple.any (fun c => e.classes.contains c)

/-! ## Circuit breaker — `bifrost/resilience/circuit_breaker.py` -/

/-- The source item `CircuitState` enum. -/
inductive CircuitState
  | CLOSED
  | OPEN
  | HALF_OPEN
deriving DecidableEq, Repr

/-- The source item `CircuitBreakerConfig` dataclass.  `recovery_timeout` is in milliseconds
(source default: 30.0 seconds). -/
structure CircuitBreakerConfig where
  failure_threshold : Nat := 5
  success_threshold : Nat := 2
  recovery_timeout : Int := 30000
  expected_exceptions : List String := ["Exception"]
  excluded_exceptions : List String := []
  name : String := "default"
deriving DecidableEq, Repr

/-- The source item `CircuitBreakerStats` dataclass. -/
structure CircuitBreakerStats where
  total_calls : Nat := 0
  successful_calls : Nat := 0
  failed_calls : Nat := 0
  rejected_calls : Nat := 0
  state_transitions : Nat := 0
  last_failure_time : Option Int := none
  last_success_time : Option Int := none
  consecutive_failures : Nat := 0
  consecutive_successes : Nat := 0
deriving DecidableEq, Repr

/-- The source item `CircuitBreakerOpenError(name, recovery_time)`. -/
structure CircuitBreakerOpenError where
  name : String
  recovery_time : Int
deriving DecidableEq, Repr

/-- The `CircuitBreaker` object: config plus the mutable fields set in
`__init__` (`_state`, `_stats`, `_last_state_change`). -/
structure CircuitBreaker where
  config : CircuitBreakerConfig
  _state : CircuitState := .CLOSED
  _stats : CircuitBreakerStats := {}
  _last_state_change : Int
deriving DecidableEq, Repr

namespace CircuitBreaker

/-- The source item `_should_attempt_recovery`: elapsed time since the last state change has
reached the recovery timeout. -/
def _should_attempt_recovery (cb : CircuitBreaker) (now : Int) : Bool :=
  now - cb._last_state_change ≥ cb.config.recovery_timeout

/-- The source item `_transition_to`: no-op when the state is unchanged; otherwise set the new
state, stamp the transition time, and count the transition. -/
def _transition_to (cb : CircuitBreaker) (new_state : CircuitState) (now : Int) :
    CircuitBreaker :=
  if cb._state = new_state then cb
  else
    { cb with
      _state := new_state
      _last_state_change := now
      _stats := { cb._stats with state_transitions := cb._stats.state_transitions + 1 } }

/-- The `state` property: lazily turns OPEN into HALF_OPEN once the recovery
timeout has elapsed, then reports the (possibly updated) state.  Returns the
mutated breaker alongside the reported state. -/
def state (cb : CircuitBreaker) (now : Int) : CircuitState × CircuitBreaker :=
  let cb :=
    if cb._state = .OPEN then
      if cb._should_attempt_recovery now then cb._transition_to .HALF_OPEN now else cb
    else cb
  (cb._state, cb)

/-- The source item `_record_success`. -/
def _record_success (cb : CircuitBreaker) (now : Int) : CircuitBreaker :=
  let s := cb._stats
  let s :=
    { s with
      total_calls := s.total_calls + 1
      successful_calls := s.successful_calls + 1
      consecutive_successes := s.consecutive_successes + 1
      consecutive_failures := 0
      last_success_time := some now }
  let cb := { cb with _stats := s }
  if cb._state = .HALF_OPEN then
    if s.consecutive_successes ≥ cb.config.success_threshold then
      cb._transition_to .CLOSED now
    else cb
  else cb

/-- The source item `_record_failure`. -/
def _record_failure (cb : CircuitBreaker) (now : Int) : CircuitBreaker :=
  let s := cb._stats
  let s :=
    { s with
      total_calls := s.total_calls + 1
      failed_calls := s.failed_calls + 1
      consecutive_failures := s.consecutive_failures + 1
      consecutive_successes := 0
      last_failure_time := some now }
  let cb := { cb with _stats := s }
  if cb._state = .HALF_OPEN then
    -- Any failure in half-open immediately opens the circuit
    cb._transition_to .OPEN now
  else if cb._state = .CLOSED then
    if s.consecutive_failures ≥ cb.config.failure_threshold then
      cb._transition_to .OPEN now
    else cb
  else cb

/-- The source item `_should_count_as_failure`: excluded exceptions never count; otherwise the
exception must match the expected exceptions. -/
def _should_count_as_failure (cb : CircuitBreaker) (exc : PyException) : Bool :=
  if isinstanceOf exc cb.config.excluded_exceptions then false
  else isinstanceOf exc cb.config.expected_exceptions

/-- The source item `_check_state`: query the state (possibly triggering OPEN → HALF_OPEN);
if the circuit is OPEN, count the rejection and produce a
`CircuitBreakerOpenError` with the remaining recovery time. -/
def _check_state (cb : CircuitBreaker) (now : Int) :
    CircuitBreaker × Option CircuitBreakerOpenError :=
  let (current_state, cb) := cb.state now
  if current_state = .OPEN then
    let cb :=
      { cb with
        _stats := { cb._stats with rejected_calls := cb._stats.rejected_calls + 1 } }
    let remaining := cb.config.recovery_timeout - (now - cb._last_state_change)
    (cb, some ⟨cb.config.name, max 0 remaining⟩)
  else (cb, none)

/-- Result of `call`: the wrapped function's value, a fast-fail rejection, or
the wrapped function's exception re-raised to the caller. -/
inductive CallOutcome (α : Type)
  | ok (a : α)
  | rejected (e : CircuitBreakerOpenError)
  | raised (e : PyException)
deriving DecidableEq, Repr

/-- The source item `call(func)`: check the state first (the wrapped operation is not executed
when the call is rejected), then record success, or record failure only for
exceptions that count, re-raising in both cases. -/
def call {α : Type} (cb : CircuitBreaker) (now : Int) (func : Except PyException α) :
    CircuitBreaker × CallOutcome α :=
  match cb._check_state now with
  | (cb, some err) => (cb, .rejected err)
  | (cb, none) =>
    match func with
    | .ok result => (cb._record_success now, .ok result)
    | .error e =>
      if cb._should_count_as_failure e then (cb._record_failure now, .raised e)
      else (cb, .raised e)

/-- The source item `reset`: manually force CLOSED and zero both streak counters. -/
def reset (cb : CircuitBreaker) (now : Int) : CircuitBreaker :=
  let cb := cb._transition_to .CLOSED now
  { cb with
    _stats :=
      { cb._stats with consecutive_failures := 0, consecutive_successes := 0 } }

end CircuitBreaker

/-! ## Ask DTOs — `bifrost/contracts/ask.py` -/

/-- The source item `Citation` DTO (the retriever produces integer chunk ids). -/
structure Citation where
  chunk_id : Nat
  source : String
  preview : PyStr
deriving DecidableEq, Repr

/-- The two lanes of `PolicyRouter`. -/
inductive Lane
  | on_device_rag
  | cloud_direct
deriving DecidableEq, Repr

/-- The source item `RouteDecision` DTO. -/
structure RouteDecisionDto where
  lane : Lane
  provider : String
  fallback_used : Bool
deriving DecidableEq, Repr

/-- The source item `Telemetry` DTO (`latency_ms` is wall-clock time, not modeled: always 0). -/
structure Telemetry where
  latency_ms : Nat
  token_estimate : Option Nat
  char_estimate : Option Nat
deriving DecidableEq, Repr

/-- The source item `AnswerResponse` DTO. -/
structure AnswerResponse where
  answer : PyStr
  citations : List Citation
  route : RouteDecisionDto
  telemetry : Telemetry
deriving DecidableEq, Repr

/-- The source item `AnswerRequest` DTO. -/
structure AnswerRequest where
  question : PyStr
  tags : Option (List String) := none
  source : Option String := none
  session_id : Option String := none

/-! ## Retrieval context — `bifrost/on_device/rag/{retriever,context_builder}.py`

The retrieval/ranking algorithm itself is outside the verified core (spec §1);
the retriever enters the model as an oracle `PyStr → Nat → List RetrievedChunk`
(question, top_k ↦ chunks).  `ContextBuilder` is embedded from the source. -/

/-- The source item `RetrievedChunk` dataclass (the float relevance `score` is only carried,
never read by the code under verification; modeled as Int). -/
structure RetrievedChunk where
  id : Nat
  source : String
  content : PyStr
  score : Int := 0
deriving DecidableEq, Repr

/-- The source item `_preview(text, limit=160)`: collapse whitespace runs, then truncate to
`limit` characters with a trailing ellipsis. -/
def _preview (text : PyStr) (limit : Nat) : PyStr :=
  let t := List.intercalate [' '] ((text.splitOnP Char.isWhitespace).filter (fun w => !w.isEmpty))
  if t.length ≤ limit then t else t.take (limit - 1) ++ ['…']

/-- The source item `SYSTEM_INSTRUCTION` prompt preamble. -/
def SYSTEM_INSTRUCTION : PyStr :=
  ("You are an incident/runbook assistant. Use ONLY the provided runbook snippets when possible. If the runbooks do not contain enough information, say you are not confident. Do not invent commands, credentials, or unsafe actions. Prefer step-by-step, operationally safe guidance with verification steps.").toList

/-- The source item `BuiltContext` dataclass. -/
structure BuiltContext where
  prompt : PyStr
  citations : List Citation
  char_estimate : Nat
deriving Repr

/-- The source item `ContextBuilder.build(question, chunks)` with `max_chars` from
`__init__` (default 6500). -/
def ContextBuilder.build (max_chars : Nat) (question : PyStr)
    (chunks : List RetrievedChunk) : BuiltContext :=
  let citations : List Citation :=
    chunks.map (fun c => { chunk_id := c.id, source := c.source, preview := _preview c.content 160 })
  let parts : List PyStr :=
    [("SYSTEM:\n").toList ++ SYSTEM_INSTRUCTION ++ ['\n'],
     ("QUESTION:\n").toList ++ pyStrip question ++ ['\n']]
  let parts := parts ++
    (if !chunks.isEmpty then
      [("RUNBOOK SNIPPETS (with citations):\n").toList] ++
        chunks.map (fun c =>
          ("[chunk:").toList ++ (toString c.id).toList ++ (" source:").toList ++
            c.source.toList ++ ("]\n").toList ++ pyStrip c.content ++ ['\n'])
    else [("RUNBOOK SNIPPETS: (none available)\n").toList])
  let parts := parts ++
    [("INSTRUCTIONS:\n- Answer using the snippets, cite chunk ids like [chunk:123].\n- If not enough info, say you cannot answer confidently and summarize the closest snippets.\n").toList]
  let prompt := List.intercalate ['\n'] parts
  let prompt :=
    if prompt.length > max_chars then
      -- Trim by dropping tail of snippets first
      let head := List.intercalate ['\n'] (parts.take 3)
      let tail_budget := max (max_chars - head.length - 20) 0
      let snippet_text := List.intercalate ['\n'] (parts.drop 3)
      head ++ ['\n'] ++ snippet_text.take tail_budget
    else prompt
  { prompt := prompt, citations := citations, char_estimate := prompt.length }

/-! ## Lane answerers and policy router — `bifrost/orchestrator/` -/

/-- The source item `AnswerAttempt` dataclass (`answerers/types.py`). -/
structure AnswerAttempt where
  answer : PyStr
  citations : List Citation
  provider : String
  token_estimate : Option Nat
  char_estimate : Nat
deriving DecidableEq, Repr

/-- The source item `PolicyRouter` configuration (`policy_router.py`). -/
structure PolicyRouter where
  enable_cloud : Bool
  cloud_provider : String
  on_device_provider : String

/-- The source item `PolicyDecision` dataclass. -/
structure PolicyDecision where
  lane : Lane
  provider : String
deriving DecidableEq, Repr

/-- The source item `PolicyRouter.decide`: an explicit cloud hint is honored only when the
cloud lane is enabled; everything else (no hint, empty hint, disabled cloud)
stays on-device. -/
def PolicyRouter.decide (r : PolicyRouter) (source_hint : Option String) : PolicyDecision :=
  let hinted :=
    match source_hint with
    | some s => s ≠ "" && (s.toLower == "cloud" || s.toLower == "cloud_direct")
    | none => false
  if hinted && r.enable_cloud then { lane := .cloud_direct, provider := r.cloud_provider }
  else { lane := .on_device_rag, provider := r.on_device_provider }

/-! ## Orchestrator — `bifrost/orchestrator/orchestrator_service.py` -/

/-- The source item `OrchestratorConfig` (durations in milliseconds). -/
structure OrchestratorConfig where
  timeout_seconds : Int := 12000
  max_retries : Nat := 1
  cb_failure_threshold : Nat := 3
  cb_success_threshold : Nat := 2
  cb_recovery_timeout : Int := 60000

/-- The list of uncertainty markers in `_looks_low_confidence`
(EN + KR, substring match). -/
def uncertaintyMarkers : List PyStr :=
  ["i don\x27t know", "not sure", "can\x27t", "cannot", "unknown",
   "모르", "확신", "알 수 없", "불확실"].map String.toList

/-- The source item `_looks_low_confidence`: empty after strip, shorter than 60 characters, or
containing any uncertainty marker. -/
def _looks_low_confidence (text : PyStr) : Bool :=
  let t := pyLower (pyStrip text)
  if t.isEmpty then true
  else if t.length < 60 then true
  else uncertaintyMarkers.any (fun m => pyContains t m)

/-- An error escaping `_call_with_timeout_and_retry`: the fast-fail circuit
rejection, or `RuntimeError("LLM call failed after retries: ...")`. -/
inductive AskError
  | circuit_open (e : CircuitBreakerOpenError)
  | failed_after_retries (last : Option PyException)
deriving DecidableEq, Repr

/-- The retry loop body of `_call_with_timeout_and_retry`: the lane answerer
(one oracle result per attempt index, timeouts appearing as exceptions);
success records a breaker success and returns, an exception records a breaker
failure and retries while retries remain.  Backoff sleeps are wall-clock
behavior and are not modeled. -/
def _retry_loop (now : Int) (answers : Nat → Except PyException AnswerAttempt)
    (cb : CircuitBreaker) (attempt : Nat) (remaining : Nat) :
    CircuitBreaker × Except AskError AnswerAttempt :=
  match answers attempt with
  | .ok result => (cb._record_success now, .ok result)
  | .error e =>
    let cb := cb._record_failure now
    match remaining with
    | 0 => (cb, .error (.failed_after_retries (some e)))
    | r + 1 => _retry_loop now answers cb (attempt + 1) r

/-- The source item `_call_with_timeout_and_retry`: fail fast with `CircuitBreakerOpenError`
when the lane's breaker reports OPEN (`cb.is_open`, which may lazily move
OPEN → HALF_OPEN first), otherwise run up to `max_retries + 1` attempts. -/
def _call_with_timeout_and_retry (cfg : OrchestratorConfig) (cb : CircuitBreaker)
    (now : Int) (answers : Nat → Except PyException AnswerAttempt) :
    CircuitBreaker × Except AskError AnswerAttempt :=
  let (st, cb) := cb.state now
  if st = .OPEN then
    (cb, .error (.circuit_open
      ⟨cb.config.name, max 0 (cb.config.recovery_timeout - (now - cb._last_state_change))⟩))
  else _retry_loop now answers cb 0 cfg.max_retries

/-- The source item `_fallback_from_rag`: recompute the best grounding snippets and return a
fixed-template answer enumerating them, marked as provider `"fallback"`.
Never calls any remote backend. -/
def _fallback_from_rag (retriever : PyStr → Nat → List RetrievedChunk) (top_k : Nat)
    (question : PyStr) : AnswerAttempt :=
  let chunks := retriever question top_k
  let built := ContextBuilder.build 6500 question chunks
  let header : PyStr :=
    ("I can\x27t confidently answer based on the runbook evidence.\n현재 런북 근거만으로는 확신 있게 답변하기 어렵습니다.\n\n가장 관련 있어 보이는 런북 스니펫:\n").toList
  let answer := built.citations.foldl
    (fun acc c =>
      acc ++ ("- [chunk:").toList ++ (toString c.chunk_id).toList ++ (" source:").toList ++
        c.source.toList ++ ("] ").toList ++ c.preview ++ ['\n'])
    header
  { answer := answer
    citations := built.citations
    provider := "fallback"
    token_estimate := none
    char_estimate := built.char_estimate }

/-- The orchestrator's environment: configuration, lane policy, and the
on-device retrieval oracle used by both the RAG lane and the fallback. -/
structure OrchestratorEnv where
  config : OrchestratorConfig
  policy : PolicyRouter
  retriever : PyStr → Nat → List RetrievedChunk
  top_k : Nat := 5

/-- The breaker guarding a lane (`self._cb_on_device` / `self._cb_cloud`). -/
def laneBreaker (lane : Lane) (cb_on_device cb_cloud : CircuitBreaker) : CircuitBreaker :=
  if lane = .on_device_rag then cb_on_device else cb_cloud

/-- The source item `OrchestratorService.ask`: lane decision, guarded invocation with
timeout/retry, confidence evaluation, deterministic fallback, response
assembly.  Both lanes' breakers are threaded through and returned updated.
`latency_ms` is wall-clock telemetry, not modeled (0). -/
def OrchestratorService.ask (env : OrchestratorEnv)
    (cb_on_device cb_cloud : CircuitBreaker)
    (answers : Nat → Except PyException AnswerAttempt)
    (req : AnswerRequest) (now : Int) :
    AnswerResponse × (CircuitBreaker × CircuitBreaker) :=
  let decision := env.policy.decide req.source
  let cb := laneBreaker decision.lane cb_on_device cb_cloud
  let (cb2, result) := _call_with_timeout_and_retry env.config cb now answers
  let (fallback_used, attempt) :=
    match result with
    | .ok attempt =>
      let low_confidence := _looks_low_confidence attempt.answer
      -- On-device RAG must produce citations; lack of citations implies
      -- we could not ground the answer.
      let low_confidence :=
        if decision.lane == Lane.on_device_rag && attempt.citations.isEmpty then true
        else low_confidence
      if low_confidence then
        (true, _fallback_from_rag env.retriever env.top_k req.question)
      else (false, attempt)
    | .error (.circuit_open _) =>
      -- Circuit is open - fail fast with fallback
      (true, _fallback_from_rag env.retriever env.top_k req.question)
    | .error (.failed_after_retries _) =>
      (true, _fallback_from_rag env.retriever env.top_k req.question)
  let resp : AnswerResponse :=
    { answer := attempt.answer
      citations := attempt.citations
      route :=
        { lane := decision.lane
          provider := attempt.provider
          fallback_used := fallback_used }
      telemetry :=
        { latency_ms := 0
          token_estimate := attempt.token_estimate
          char_estimate := some attempt.char_estimate } }
  (resp, if decision.lane = Lane.on_device_rag then (cb2, cb_cloud) else (cb_on_device, cb2))

/-! ## Routing data model — `bifrost/routing/models.py` -/

/-- The source item `RoutingStrategy` enum. -/
inductive RoutingStrategy
  | cost_optimized
  | latency_optimized
  | quality_optimized
  | balanced
  | failover
  | round_robin
  | adaptive
deriving DecidableEq, Repr

/-- The source item `ProviderType` enum. -/
inductive ProviderType
  | OLLAMA
  | BEDROCK
  | OPENAI
  | AZURE_OPENAI
  | ANTHROPIC
  | VERTEX_AI
deriving DecidableEq, Repr

/-- The source item `ProviderConfig` dataclass.  `cost_per_1k_tokens` is in micro-USD
(source: USD floats, e.g. 0.002 USD = 2000); latency/weight/success-rate
floats are exact rationals.  `last_used` is wall-clock bookkeeping the router
only writes, never reads: omitted. -/
structure ProviderConfig where
  name : String
  provider_type : ProviderType
  model : String := ""
  priority : Int := 10
  weight : ℚ := 1
  cost_per_1k_tokens : Int := 0
  avg_latency_ms : ℚ := 1000
  max_tokens : Nat := 4096
  capabilities : List String := ["chat"]
  enabled : Bool := true
  rate_limit_rpm : Nat := 60
  circuit_breaker_name : Option String := none
  current_rpm : Nat := 0
  success_rate : ℚ := 1
deriving DecidableEq, Repr

/-- The source item `ProviderConfig.is_available`: enabled and under the per-minute rate
limit. -/
def ProviderConfig.is_available (p : ProviderConfig) : Bool :=
  if !p.enabled then false
  else if p.current_rpm ≥ p.rate_limit_rpm then false
  else true

/-- A float score that may be `float("inf")`. -/
inductive FScore
  | val (q : ℚ)
  | inf
deriving DecidableEq, Repr

/-- The source item `RoutingDecision` dataclass (`decided_at` wall-clock timestamp omitted;
numeric formatting inside `reason` strings is abbreviated). -/
structure RoutingDecision where
  provider : ProviderConfig
  strategy_used : RoutingStrategy
  score : FScore
  alternatives : List String := []
  reason : String := ""
  request_id : Option String := none
deriving DecidableEq, Repr

/-! ## Cost optimizer — `bifrost/routing/cost_optimizer.py` -/

/-- The source item `DEFAULT_COSTS` per 1K tokens, in micro-USD
(source: 0.0, 0.002, 0.01, 0.01, 0.008, 0.005 USD). -/
def DEFAULT_COSTS : ProviderType → Int
  | .OLLAMA => 0
  | .BEDROCK => 2000
  | .OPENAI => 10000
  | .AZURE_OPENAI => 10000
  | .ANTHROPIC => 8000
  | .VERTEX_AI => 5000

/-- CJK character test used by `estimate_tokens`
(ranges 4e00–9fff, ac00–d7a3, 3040–30ff). -/
def isCJK (c : Char) : Bool :=
  (0x4e00 ≤ c.toNat && c.toNat ≤ 0x9fff) ||
  (0xac00 ≤ c.toNat && c.toNat ≤ 0xd7a3) ||
  (0x3040 ≤ c.toNat && c.toNat ≤ 0x30ff)

/-- The source item `CostOptimizer.estimate_tokens`: `int(cjk_count / 1.5 + non_cjk_count / 4)`
computed exactly: `⌊(8·cjk + 3·non_cjk) / 12⌋`. -/
def estimate_tokens (text : PyStr) : Nat :=
  if text.isEmpty then 0
  else
    let cjk_count := text.countP isCJK
    let non_cjk_count := text.length - cjk_count
    (8 * cjk_count + 3 * non_cjk_count) / 12

/-- The source item `CostOptimizer.get_cost_per_1k`: custom costs first, then the provider's
configured cost if positive, then the per-type default. -/
def get_cost_per_1k (custom_costs : List (String × Int)) (p : ProviderConfig) : Int :=
  match custom_costs.lookup p.name with
  | some c => c
  | none =>
    if p.cost_per_1k_tokens > 0 then p.cost_per_1k_tokens
    else DEFAULT_COSTS p.provider_type

/-- The source item `CostEstimate` dataclass.  `estimated_cost` is exact, in nano-USD:
`(total_tokens / 1000) × cost_usd = total_tokens × cost_micro` nano-USD. -/
structure CostEstimate where
  provider_name : String
  estimated_tokens : Nat
  cost_per_1k : Int
  estimated_cost : Int
deriving DecidableEq, Repr

/-- The source item `CostOptimizer.estimate_cost` (default `expected_output_tokens=500`). -/
def estimate_cost (custom_costs : List (String × Int)) (p : ProviderConfig)
    (input_text : PyStr) (expected_output_tokens : Nat) : CostEstimate :=
  let input_tokens := estimate_tokens input_text
  let total_tokens := input_tokens + expected_output_tokens
  let cost_per_1k := get_cost_per_1k custom_costs p
  { provider_name := p.name
    estimated_tokens := total_tokens
    cost_per_1k := cost_per_1k
    estimated_cost := (total_tokens : Int) * cost_per_1k }

/-- The source item `CostOptimizer.rank_by_cost`: estimate for each available provider, then
stable-sort ascending by estimated cost (Python's `list.sort` is stable;
`List.insertionSort` with `≤` is the same stable sort). -/
def rank_by_cost (custom_costs : List (String × Int)) (providers : List ProviderConfig)
    (input_text : PyStr) : List (ProviderConfig × CostEstimate) :=
  let estimates := (providers.filter (fun p => p.is_available)).map
    (fun p => (p, estimate_cost custom_costs p input_text 500))
  List.insertionSort (fun a b => a.2.estimated_cost ≤ b.2.estimated_cost) estimates

/-! ## Load balancer — `bifrost/routing/load_balancer.py`

Python dicts are insertion-ordered association lists here. -/

/-- The source item `dict.get(k, default)`. -/
def dictGetD {α : Type} (d : List (String × α)) (k : String) (dflt : α) : α :=
  match d.lookup k with
  | some v => v
  | none => dflt

/-- The source item `k in dict`. -/
def dictContains {α : Type} (d : List (String × α)) (k : String) : Bool :=
  (d.lookup k).isSome

/-- The source item `dict[k] = v`: update in place, or append a new entry. -/
def dictSet {α : Type} : List (String × α) → String → α → List (String × α)
  | [], k, v => [(k, v)]
  | (k0, v0) :: rest, k, v =>
    if k0 = k then (k0, v) :: rest else (k0, v0) :: dictSet rest k v

/-- Python `min(..., key=...)` over a nonempty collection: the first strict
minimum wins. -/
def pyMinByKey (key : ProviderConfig → ℚ) :
    ProviderConfig → List ProviderConfig → ProviderConfig
  | best, [] => best
  | best, x :: xs => if key x < key best then pyMinByKey key x xs else pyMinByKey key best xs

/-- The `LoadBalancer` state: round-robin index, per-provider active-request
counters, per-provider recent response times (ms). -/
structure LoadBalancer where
  _round_robin_index : Nat := 0
  _active_requests : List (String × Int) := []
  _request_times : List (String × List ℚ) := []

namespace LoadBalancer

/-- The source item `select_round_robin`: rotate the shared index over the currently available
providers. -/
def select_round_robin (lb : LoadBalancer) (providers : List ProviderConfig) :
    Option ProviderConfig × LoadBalancer :=
  match providers.filter (fun p => p.is_available) with
  | [] => (none, lb)
  | a :: rest =>
    let idx := (lb._round_robin_index + 1) % (a :: rest).length
    (some ((a :: rest).getD idx a), { lb with _round_robin_index := idx })

/-- The source item `select_fastest`: lowest average recent response time, falling back to the
configured average latency when no samples exist; Python `min` keeps the first
minimum. -/
def select_fastest (lb : LoadBalancer) (providers : List ProviderConfig) :
    Option ProviderConfig :=
  let avg := fun (p : ProviderConfig) =>
    match lb._request_times.lookup p.name with
    | some (t :: ts) => ((t :: ts).foldl (· + ·) 0) / ((t :: ts).length : ℚ)
    | _ => p.avg_latency_ms
  match providers.filter (fun p => p.is_available) with
  | [] => none
  | a :: rest => some (pyMinByKey avg a rest)

/-- The source item `record_request_start`: increment the provider's active-request counter
(creating it at 0). -/
def record_request_start (lb : LoadBalancer) (provider_name : String) : LoadBalancer :=
  { lb with
    _active_requests :=
      dictSet lb._active_requests provider_name
        (dictGetD lb._active_requests provider_name 0 + 1) }

/-- The source item `record_request_end`: clamp-decrement the active counter (only when the
key exists), and append the response time keeping the last 100 samples. -/
def record_request_end (lb : LoadBalancer) (provider_name : String)
    (response_time_ms : ℚ) (success : Bool) : LoadBalancer :=
  let active :=
    if dictContains lb._active_requests provider_name then
      dictSet lb._active_requests provider_name
        (max 0 (dictGetD lb._active_requests provider_name 0 - 1))
    else lb._active_requests
  let times := dictGetD lb._request_times provider_name [] ++ [response_time_ms]
  let times := if times.length > 100 then times.drop (times.length - 100) else times
  { lb with
    _active_requests := active
    _request_times := dictSet lb._request_times provider_name times }

end LoadBalancer

/-! ## Dynamic router — `bifrost/routing/router.py`

The circuit-breaker registry enters the model as an oracle
`breaker_state : String → CircuitState` (the state `registry.get(name).state`
reports at routing time; `get` never raises — it lazily creates CLOSED
breakers).  Metrics recording (`_record_routing`) only mutates the metrics
snapshot and is not modeled. -/

/-- Router state: the name-keyed, insertion-ordered provider registry, the
default strategy, the load balancer, and the cost optimizer's custom costs. -/
structure DynamicRouter where
  _providers : List ProviderConfig := []
  _default_strategy : RoutingStrategy := .balanced
  _load_balancer : LoadBalancer := {}
  custom_costs : List (String × Int) := []

namespace DynamicRouter

/-- Python dict update keyed by provider name: replace in place or append. -/
def upsertProvider : List ProviderConfig → ProviderConfig → List ProviderConfig
  | [], c => [c]
  | p :: ps, c => if p.name = c.name then c :: ps else p :: upsertProvider ps c

/-- The method `register_provider`: `self._providers[config.name] = config`. -/
def register_provider (r : DynamicRouter) (config : ProviderConfig) : DynamicRouter :=
  { r with _providers := upsertProvider r._providers config }

/-- The source item `_filter_providers`: drop excluded, disabled, capability-lacking,
circuit-open, and rate-limited providers, in that order. -/
def _filter_providers (r : DynamicRouter) (breaker_state : String → CircuitState)
    (required_capabilities : Option (List String))
    (exclude_providers : Option (List String)) : List ProviderConfig :=
  r._providers.filter (fun provider =>
    !(match exclude_providers with
      | some ex => ex.contains provider.name
      | none => false) &&
    provider.enabled &&
    (match required_capabilities with
     | some caps => caps.all (fun c => provider.capabilities.contains c)
     | none => true) &&
    (match provider.circuit_breaker_name with
     | some cbn => !(breaker_state cbn == CircuitState.OPEN)
     | none => true) &&
    provider.is_available)

/-- The source item `_select_by_cost` (nonempty candidates as `c :: cs`). -/
def _select_by_cost (custom_costs : List (String × Int)) (c : ProviderConfig)
    (cs : List ProviderConfig) (input_text : PyStr) (request_id : Option String) :
    RoutingDecision :=
  match rank_by_cost custom_costs (c :: cs) input_text with
  | [] =>
    { provider := c, strategy_used := .cost_optimized, score := .inf
      reason := "No cost data available", request_id := request_id }
  | (provider, estimate) :: rest =>
    { provider := provider, strategy_used := .cost_optimized
      score := .val (estimate.estimated_cost : ℚ)
      alternatives := (rest.take 3).map (fun pe => pe.1.name)
      reason := "Lowest cost", request_id := request_id }

/-- The source item `_select_by_latency`. -/
def _select_by_latency (lb : LoadBalancer) (c : ProviderConfig)
    (cs : List ProviderConfig) (request_id : Option String) : RoutingDecision :=
  let provider := (lb.select_fastest (c :: cs)).getD c
  { provider := provider, strategy_used := .latency_optimized
    score := .val provider.avg_latency_ms
    alternatives := (((c :: cs).filter (fun p => p ≠ provider)).map (fun p => p.name)).take 3
    reason := "Lowest latency", request_id := request_id }

/-- The source item `_select_by_quality`: ascending priority (stable sort, first wins). -/
def _select_by_quality (c : ProviderConfig) (cs : List ProviderConfig)
    (request_id : Option String) : RoutingDecision :=
  let sorted_candidates :=
    List.insertionSort (fun a b : ProviderConfig => a.priority ≤ b.priority) (c :: cs)
  let provider := sorted_candidates.headD c
  { provider := provider, strategy_used := .quality_optimized
    score := .val (provider.priority : ℚ)
    alternatives := ((sorted_candidates.drop 1).take 3).map (fun p => p.name)
    reason := "Highest quality", request_id := request_id }

/-- The source item `_select_failover`: like quality, but the alternatives list is the whole
ordered remainder. -/
def _select_failover (c : ProviderConfig) (cs : List ProviderConfig)
    (request_id : Option String) : RoutingDecision :=
  let sorted_candidates :=
    List.insertionSort (fun a b : ProviderConfig => a.priority ≤ b.priority) (c :: cs)
  let provider := sorted_candidates.headD c
  { provider := provider, strategy_used := .failover
    score := .val (provider.priority : ℚ)
    alternatives := (sorted_candidates.drop 1).map (fun p => p.name)
    reason := "Primary with failovers", request_id := request_id }

/-- The source item `max(xs)` over a nonempty list of rationals. -/
def listMaxQ : List ℚ → ℚ
  | [] => 0
  | x :: xs => xs.foldl max x

/-- The per-provider composite score of `_select_balanced`
(`0.3·cost + 0.3·latency + 0.4·priority`, each normalized by the max among
candidates; Python's `max(...) or 1` maps 0 to 1). -/
def balancedScore (custom_costs : List (String × Int))
    (candidates : List ProviderConfig) (p : ProviderConfig) : ℚ :=
  let cost : ℚ := (get_cost_per_1k custom_costs p : ℚ)
  let max_cost_raw := listMaxQ (candidates.map (fun q => (get_cost_per_1k custom_costs q : ℚ)))
  let max_cost := if max_cost_raw = 0 then 1 else max_cost_raw
  let cost_score := if max_cost > 0 then cost / max_cost else 0
  let max_latency_raw := listMaxQ (candidates.map (fun q => q.avg_latency_ms))
  let max_latency := if max_latency_raw = 0 then 1 else max_latency_raw
  let latency_score := p.avg_latency_ms / max_latency
  let max_priority_raw := listMaxQ (candidates.map (fun q => (q.priority : ℚ)))
  let max_priority := if max_priority_raw = 0 then 1 else max_priority_raw
  let quality_score := (p.priority : ℚ) / max_priority
  cost_score * (3 / 10) + latency_score * (3 / 10) + quality_score * (4 / 10)

/-- The source item `_select_balanced`. -/
def _select_balanced (custom_costs : List (String × Int)) (c : ProviderConfig)
    (cs : List ProviderConfig) (request_id : Option String) : RoutingDecision :=
  let score := balancedScore custom_costs (c :: cs)
  let best := pyMinByKey score c cs
  let sorted_by_score :=
    List.insertionSort (fun a b : ProviderConfig => score a ≤ score b) (c :: cs)
  { provider := best, strategy_used := .balanced
    score := .val (score best)
    alternatives := ((sorted_by_score.drop 1).take 3).map (fun p => p.name)
    reason := "Balanced score", request_id := request_id }

/-- The source item `_select_provider`: dispatch on the strategy (BALANCED is also the
ADAPTIVE fallback).  Only round-robin mutates the load balancer. -/
def _select_provider (r : DynamicRouter) (c : ProviderConfig) (cs : List ProviderConfig)
    (input_text : PyStr) (strategy : RoutingStrategy) (request_id : Option String) :
    RoutingDecision × LoadBalancer :=
  match strategy with
  | .cost_optimized => (_select_by_cost r.custom_costs c cs input_text request_id, r._load_balancer)
  | .latency_optimized => (_select_by_latency r._load_balancer c cs request_id, r._load_balancer)
  | .quality_optimized => (_select_by_quality c cs request_id, r._load_balancer)
  | .round_robin =>
    let (sel, lb) := r._load_balancer.select_round_robin (c :: cs)
    ({ provider := sel.getD c, strategy_used := .round_robin, score := .val 0
       alternatives := (((c :: cs).filter (fun p => sel ≠ some p)).map (fun p => p.name)).take 3
       reason := "Round robin selection", request_id := request_id }, lb)
  | .failover => (_select_failover c cs request_id, r._load_balancer)
  | _ => (_select_balanced r.custom_costs c cs request_id, r._load_balancer)

/-- The source item `route`: filter, then select; an empty candidate set degrades to the first
registered provider with infinite score; an empty registry is the only hard
error (`RuntimeError("No LLM providers configured")`). -/
def route (r : DynamicRouter) (breaker_state : String → CircuitState)
    (input_text : PyStr) (strategy : Option RoutingStrategy)
    (required_capabilities : Option (List String))
    (exclude_providers : Option (List String)) (request_id : Option String) :
    DynamicRouter × Except String RoutingDecision :=
  let strat := strategy.getD r._default_strategy
  match r._filter_providers breaker_state required_capabilities exclude_providers with
  | [] =>
    match r._providers with
    | [] => (r, .error "No LLM providers configured")
    | fallback :: _ =>
      (r, .ok
        { provider := fallback, strategy_used := strat, score := .inf
          reason := "No available providers, using fallback", request_id := request_id })
  | c :: cs =>
    let (decision, lb) := r._select_provider c cs input_text strat request_id
    ({ r with _load_balancer := lb }, .ok decision)

end DynamicRouter

/-! ## Concrete data and operation sequences used by the claim theorems -/

/-- C1 scenario config: `failure_threshold=2, success_threshold=2,
recovery_timeout=100ms`. -/
def scenarioConfig : CircuitBreakerConfig :=
  { failure_threshold := 2, success_threshold := 2, recovery_timeout := 100, name := "test" }

/-- A counted failure (a `RuntimeError`, which is an `Exception`). -/
def scenarioError : PyException := { classes := ["RuntimeError", "Exception"] }

/-- C1: the breaker as constructed at time 0. -/
def scenarioCB0 : CircuitBreaker := { config := scenarioConfig, _last_state_change := 0 }

/-- C1: after the first counted failure (t = 0 ms). -/
def scenarioCB1 : CircuitBreaker :=
  (scenarioCB0.call 0 (Except.error scenarioError : Except PyException Unit)).1

/-- C1: after the second counted failure (t = 10 ms). -/
def scenarioCB2 : CircuitBreaker :=
  (scenarioCB1.call 10 (Except.error scenarioError : Except PyException Unit)).1

/-- C1: after the rejected call while OPEN (t = 60 ms, 50 ms after the
transition). -/
def scenarioCB3 : CircuitBreaker :=
  (scenarioCB2.call 60 (Except.ok () : Except PyException Unit)).1

/-- C1: after the state query at t = 160 ms (150 ms after the transition). -/
def scenarioCB4 : CircuitBreaker := (scenarioCB3.state 160).2

/-- C1: after one success at t = 170 ms. -/
def scenarioCB5 : CircuitBreaker :=
  (scenarioCB4.call 170 (Except.ok () : Except PyException Unit)).1

/-- C1: after a second consecutive success at t = 180 ms. -/
def scenarioCB6 : CircuitBreaker :=
  (scenarioCB5.call 180 (Except.ok () : Except PyException Unit)).1

/-- A HALF_OPEN breaker with a long success streak, for the C5 witness. -/
def halfOpenCB : CircuitBreaker :=
  { config := {}
    _state := .HALF_OPEN
    _stats := { consecutive_successes := 1, successful_calls := 1, total_calls := 1 }
    _last_state_change := 7 }

/-- The breaker operations of claim C7: recorded successes, recorded failures,
and manual resets, each at some instant. -/
inductive BreakerOp
  | success (now : Int)
  | failure (now : Int)
  | reset (now : Int)

/-- Apply one breaker operation. -/
def applyBreakerOp (cb : CircuitBreaker) : BreakerOp → CircuitBreaker
  | .success now => cb._record_success now
  | .failure now => cb._record_failure now
  | .reset now => cb.reset now

/-- Apply a sequence of breaker operations. -/
def runBreakerOps (cb : CircuitBreaker) (ops : List BreakerOp) : CircuitBreaker :=
  ops.foldl applyBreakerOp cb

/-- A `ValueError` (excluded by the C8 witness configuration). -/
def validationError : PyException := { classes := ["ValueError", "Exception"] }

/-- A CLOSED breaker whose configuration excludes `ValueError`, with some
accumulated counters, for the C8 witness. -/
def excludedCB : CircuitBreaker :=
  { config := { excluded_exceptions := ["ValueError"], name := "api" }
    _stats := { total_calls := 4, successful_calls := 3, failed_calls := 1,
                consecutive_failures := 1 }
    _last_state_change := 0 }

/-- The load-balancer bookkeeping calls of claim C10. -/
inductive LBOp
  | reqStart (provider_name : String)
  | reqEnd (provider_name : String) (response_time_ms : ℚ) (ok : Bool)

/-- Apply one bookkeeping call. -/
def applyLBOp (lb : LoadBalancer) : LBOp → LoadBalancer
  | .reqStart name => lb.record_request_start name
  | .reqEnd name rt ok => lb.record_request_end name rt ok

/-- An OPEN on-device breaker (tripped at t = 0 ms) for the C2 witness. -/
def openCB : CircuitBreaker :=
  { config := { failure_threshold := 3, success_threshold := 2, recovery_timeout := 60000,
                name := "on_device_rag" }
    _state := .OPEN
    _last_state_change := 0 }

/-- A fresh cloud-lane breaker. -/
def cloudCB : CircuitBreaker :=
  { config := { failure_threshold := 3, success_threshold := 2, recovery_timeout := 60000,
                name := "cloud_direct" }
    _last_state_change := 0 }

/-- A concrete orchestrator environment (cloud lane disabled, one grounding
chunk available). -/
def witnessEnv : OrchestratorEnv :=
  { config := {}
    policy := { enable_cloud := false, cloud_provider := "bedrock", on_device_provider := "ollama" }
    retriever := fun _ _ =>
      [{ id := 3, source := "runbook.md", content := ("restart the pod").toList }]
    top_k := 5 }

/-- A concrete request. -/
def witnessReq : AnswerRequest := { question := ("how do I fix it").toList }

/-- A concrete successful attempt (too short: low confidence). -/
def witnessAttempt : AnswerAttempt :=
  { answer := ("try rebooting").toList, citations := []
    provider := "ollama", token_estimate := some 3, char_estimate := 15 }

/-- An answerer oracle that always fails. -/
def failingAnswers : Nat → Except PyException AnswerAttempt :=
  fun _ => Except.error { classes := ["TimeoutError", "Exception"] }

/-- An answerer oracle that always succeeds with `witnessAttempt`. -/
def succeedingAnswers : Nat → Except PyException AnswerAttempt :=
  fun _ => Except.ok witnessAttempt

/-- A registered-but-disabled provider, for the C3 witness. -/
def offlineProvider : ProviderConfig :=
  { name := "ollama_local", provider_type := .OLLAMA, model := "mistral", enabled := false }

/-- A router whose only provider is disabled. -/
def witnessRouter : DynamicRouter := { _providers := [offlineProvider] }

/-- Iterate `select_round_robin` over a fixed provider list, collecting the
selected providers in order. -/
def rrRun (lb : LoadBalancer) (providers : List ProviderConfig) :
    Nat → LoadBalancer × List ProviderConfig
  | 0 => (lb, [])
  | n + 1 =>
    match lb.select_round_robin providers with
    | (some p, lb2) =>
      let r := rrRun lb2 providers n
      (r.1, p :: r.2)
    | (none, lb2) =>
      let r := rrRun lb2 providers n
      (r.1, r.2)

/-- An available provider "a" for the C9 witness. -/
def rrProviderA : ProviderConfig := { name := "a", provider_type := .OLLAMA, model := "m" }

/-- An available provider "b" for the C9 witness. -/
def rrProviderB : ProviderConfig := { name := "b", provider_type := .BEDROCK, model := "m" }

/-- Provider "A", configured cost 0.03 USD per 1K tokens (30000 micro-USD). -/
def costProviderA (t : ProviderType) : ProviderConfig :=
  { name := "A", provider_type := t, model := "m", cost_per_1k_tokens := 30000 }

/-- Provider "B", configured cost 0.0 USD per 1K tokens. -/
def costProviderB (t : ProviderType) : ProviderConfig :=
  { name := "B", provider_type := t, model := "m", cost_per_1k_tokens := 0 }

/-- Provider "C", configured cost 0.01 USD per 1K tokens (10000 micro-USD). -/
def costProviderC (t : ProviderType) : ProviderConfig :=
  { name := "C", provider_type := t, model := "m", cost_per_1k_tokens := 10000 }

/-! ## Theorems: circuit breaker -/

/-- Helper facts about the `state` property: querying it never changes the
call counters or the streak counters (only a lazy OPEN → HALF_OPEN transition
may bump `state_transitions`). -/
theorem CircuitBreaker.state_counters (cb : CircuitBreaker) (now : Int) :
    ((cb.state now).2)._stats.total_calls = cb._stats.total_calls ∧
    ((cb.state now).2)._stats.successful_calls = cb._stats.successful_calls ∧
    ((cb.state now).2)._stats.failed_calls = cb._stats.failed_calls ∧
    ((cb.state now).2)._stats.rejected_calls = cb._stats.rejected_calls ∧
    ((cb.state now).2)._stats.consecutive_failures = cb._stats.consecutive_failures ∧
    ((cb.state now).2)._stats.consecutive_successes = cb._stats.consecutive_successes := by
  unfold CircuitBreaker.state CircuitBreaker._transition_to
  split <;> (try split) <;> simp_all

/-- Querying the `state` property twice at the same instant reports the same
state. -/
theorem CircuitBreaker.state_idem (cb : CircuitBreaker) (now : Int) :
    (((cb.state now).2).state now).1 = (cb.state now).1 := by
  unfold CircuitBreaker.state CircuitBreaker._transition_to
  split <;> (try split) <;> simp_all

/-- If the reported state is not OPEN while the raw state is not OPEN either,
the query leaves the breaker untouched. -/
theorem CircuitBreaker.state_of_not_open (cb : CircuitBreaker) (now : Int)
    (h : cb._state ≠ CircuitState.OPEN) : cb.state now = (cb._state, cb) := by
  unfold CircuitBreaker.state
  split <;> simp_all

/-- C1: with `failure_threshold=2, success_threshold=2,
recovery_timeout=100ms`, starting CLOSED: two consecutive counted failures
transition the breaker to OPEN; a call attempted while OPEN before the timeout
elapses is rejected with a `CircuitBreakerOpenError` carrying remaining
recovery time > 0 and the wrapped operation is not executed (the outcome and
resulting breaker are the same for every wrapped operation); once 100 ms have
elapsed since the transition, the very next state query reports HALF_OPEN; one
success leaves it in HALF_OPEN; a second consecutive success transitions it to
CLOSED. -/
theorem circuit_breaker_lifecycle_scenario :
    scenarioCB1._state = CircuitState.CLOSED ∧
    scenarioCB2._state = CircuitState.OPEN ∧
    (∀ func : Except PyException Unit,
      ∃ err : CircuitBreakerOpenError,
        (scenarioCB2.call 60 func).2 = CircuitBreaker.CallOutcome.rejected err ∧
        0 < err.recovery_time ∧
        (scenarioCB2.call 60 func).1 = scenarioCB3) ∧
    (scenarioCB3.state 160).1 = CircuitState.HALF_OPEN ∧
    scenarioCB5._state = CircuitState.HALF_OPEN ∧
    scenarioCB6._state = CircuitState.CLOSED := by
  refine ⟨by decide, by decide, ?_, by decide, by decide, by decide⟩
  intro func
  exact ⟨⟨"test", 50⟩, rfl, by decide, rfl⟩

/-- C5: a single counted failure recorded while HALF_OPEN transitions the
breaker to OPEN and resets the recovery timer (`_last_state_change := now`),
regardless of the accumulated consecutive successes. -/
theorem half_open_failure_reopens (cb : CircuitBreaker) (now : Int)
    (h : cb._state = CircuitState.HALF_OPEN) :
    (cb._record_failure now)._state = CircuitState.OPEN ∧
    (cb._record_failure now)._last_state_change = now := by
  unfold CircuitBreaker._record_failure CircuitBreaker._transition_to
  simp [h]

/-- C5 witness: the theorem applied to a concrete HALF_OPEN breaker. -/
theorem half_open_failure_reopens_witness :
    halfOpenCB._state = CircuitState.HALF_OPEN ∧
    ((halfOpenCB._record_failure 42)._state = CircuitState.OPEN ∧
     (halfOpenCB._record_failure 42)._last_state_change = 42) :=
  ⟨by decide, half_open_failure_reopens halfOpenCB 42 (by decide)⟩

/-- The source item `_record_success` always zeroes the consecutive-failure counter. -/
theorem record_success_zeroes_failures (cb : CircuitBreaker) (now : Int) :
    (cb._record_success now)._stats.consecutive_failures = 0 := by
  simp only [CircuitBreaker._record_success, CircuitBreaker._transition_to]
  split_ifs <;> rfl

/-- The source item `_record_failure` always zeroes the consecutive-success counter. -/
theorem record_failure_zeroes_successes (cb : CircuitBreaker) (now : Int) :
    (cb._record_failure now)._stats.consecutive_successes = 0 := by
  simp only [CircuitBreaker._record_failure, CircuitBreaker._transition_to]
  split_ifs <;> rfl

/-- The source item `reset` zeroes both streak counters. -/
theorem reset_zeroes_streaks (cb : CircuitBreaker) (now : Int) :
    (cb.reset now)._stats.consecutive_failures = 0 ∧
    (cb.reset now)._stats.consecutive_successes = 0 := by
  simp [CircuitBreaker.reset, CircuitBreaker._transition_to]

/-- After any single breaker operation the streak counters are mutually
exclusive. -/
theorem applyBreakerOp_exclusive (cb : CircuitBreaker) (op : BreakerOp) :
    (applyBreakerOp cb op)._stats.consecutive_failures = 0 ∨
    (applyBreakerOp cb op)._stats.consecutive_successes = 0 := by
  cases op with
  | success now => exact Or.inl (record_success_zeroes_failures cb now)
  | failure now => exact Or.inr (record_failure_zeroes_successes cb now)
  | reset now => exact Or.inl (reset_zeroes_streaks cb now).1

/-- The mutual-exclusion invariant is preserved by any operation sequence. -/
theorem runBreakerOps_exclusive (ops : List BreakerOp) (cb : CircuitBreaker)
    (h : cb._stats.consecutive_failures = 0 ∨ cb._stats.consecutive_successes = 0) :
    (runBreakerOps cb ops)._stats.consecutive_failures = 0 ∨
    (runBreakerOps cb ops)._stats.consecutive_successes = 0 := by
  induction ops generalizing cb with
  | nil => exact h
  | cons op rest ih => exact ih (applyBreakerOp cb op) (applyBreakerOp_exclusive cb op)

/-- C7: starting from a freshly constructed breaker, after any sequence of
recorded successes, recorded failures, and manual resets, the
consecutive-failure and consecutive-success counters are never both nonzero;
moreover every recorded success zeroes consecutive failures, every recorded
failure zeroes consecutive successes, and every manual reset zeroes both. -/
theorem streak_counters_mutually_exclusive (cfg : CircuitBreakerConfig) (t0 : Int)
    (ops : List BreakerOp) :
    ((runBreakerOps { config := cfg, _last_state_change := t0 } ops)._stats.consecutive_failures = 0 ∨
     (runBreakerOps { config := cfg, _last_state_change := t0 } ops)._stats.consecutive_successes = 0) ∧
    (∀ (cb : CircuitBreaker) (now : Int),
      (cb._record_success now)._stats.consecutive_failures = 0 ∧
      (cb._record_failure now)._stats.consecutive_successes = 0 ∧
      (cb.reset now)._stats.consecutive_failures = 0 ∧
      (cb.reset now)._stats.consecutive_successes = 0) := by
  constructor
  · exact runBreakerOps_exclusive ops _ (Or.inl rfl)
  · intro cb now
    exact ⟨record_success_zeroes_failures cb now, record_failure_zeroes_successes cb now,
      (reset_zeroes_streaks cb now).1, (reset_zeroes_streaks cb now).2⟩

/-- C8: when the breaker's configuration excludes an exception kind, executing
an operation through `call` that raises such an exception leaves the breaker's
observable state and all its call counters (total, successful, failed,
rejected, consecutive-failure, consecutive-success) unchanged, while the
exception itself propagates to the caller; when the raw state was not OPEN the
breaker object is completely untouched.  (Admission — the reported state not
being OPEN — is required, since an OPEN breaker rejects without executing the
operation at all.) -/
theorem call_excluded_exception_frame (cb : CircuitBreaker) (now : Int)
    (e : PyException)
    (hexcl : isinstanceOf e cb.config.excluded_exceptions = true)
    (hnotopen : (cb.state now).1 ≠ CircuitState.OPEN) :
    (cb.call now (Except.error e : Except PyException Unit)).2 =
      CircuitBreaker.CallOutcome.raised e ∧
    ((cb.call now (Except.error e : Except PyException Unit)).1._stats.total_calls =
        cb._stats.total_calls ∧
      (cb.call now (Except.error e : Except PyException Unit)).1._stats.successful_calls =
        cb._stats.successful_calls ∧
      (cb.call now (Except.error e : Except PyException Unit)).1._stats.failed_calls =
        cb._stats.failed_calls ∧
      (cb.call now (Except.error e : Except PyException Unit)).1._stats.rejected_calls =
        cb._stats.rejected_calls ∧
      (cb.call now (Except.error e : Except PyException Unit)).1._stats.consecutive_failures =
        cb._stats.consecutive_failures ∧
      (cb.call now (Except.error e : Except PyException Unit)).1._stats.consecutive_successes =
        cb._stats.consecutive_successes) ∧
    ((cb.call now (Except.error e : Except PyException Unit)).1.state now).1 =
      (cb.state now).1 ∧
    (cb._state ≠ CircuitState.OPEN →
      (cb.call now (Except.error e : Except PyException Unit)).1 = cb) := by
  have hcheck : cb._check_state now = ((cb.state now).2, none) := by
    unfold CircuitBreaker._check_state
    rcases h : cb.state now with ⟨st, cbq⟩
    have : st ≠ CircuitState.OPEN := by
      intro hst; exact hnotopen (by rw [h, hst])
    simp [this]
  have hcount : cb._should_count_as_failure e = false := by
    unfold CircuitBreaker._should_count_as_failure
    simp [hexcl]
  have hcall :
      cb.call now (Except.error e : Except PyException Unit) =
        ((cb.state now).2, CircuitBreaker.CallOutcome.raised e) := by
    unfold CircuitBreaker.call
    rw [hcheck]
    have hq : ((cb.state now).2)._should_count_as_failure e = false := by
      unfold CircuitBreaker._should_count_as_failure
      have : ((cb.state now).2).config = cb.config := by
        unfold CircuitBreaker.state CircuitBreaker._transition_to
        split <;> (try split) <;> simp_all
      rw [this]
      simp [hexcl]
    simp [hq]
  rw [hcall]
  refine ⟨rfl, ?_, CircuitBreaker.state_idem cb now, ?_⟩
  · exact (CircuitBreaker.state_counters cb now).imp id
      (fun h => h.imp id (fun h => h.imp id (fun h => h.imp id (fun h => h.imp id id))))
  · intro hraw
    rw [CircuitBreaker.state_of_not_open cb now hraw]

/-- C8 witness: the theorem applied to a concrete breaker and excluded
exception. -/
theorem call_excluded_exception_frame_witness :
    isinstanceOf validationError excludedCB.config.excluded_exceptions = true ∧
    (excludedCB.state 5).1 ≠ CircuitState.OPEN ∧
    ((excludedCB.call 5 (Except.error validationError : Except PyException Unit)).2 =
        CircuitBreaker.CallOutcome.raised validationError ∧
      ((excludedCB.call 5 (Except.error validationError : Except PyException Unit)).1._stats.total_calls =
          excludedCB._stats.total_calls ∧
        (excludedCB.call 5 (Except.error validationError : Except PyException Unit)).1._stats.successful_calls =
          excludedCB._stats.successful_calls ∧
        (excludedCB.call 5 (Except.error validationError : Except PyException Unit)).1._stats.failed_calls =
          excludedCB._stats.failed_calls ∧
        (excludedCB.call 5 (Except.error validationError : Except PyException Unit)).1._stats.rejected_calls =
          excludedCB._stats.rejected_calls ∧
        (excludedCB.call 5 (Except.error validationError : Except PyException Unit)).1._stats.consecutive_failures =
          excludedCB._stats.consecutive_failures ∧
        (excludedCB.call 5 (Except.error validationError : Except PyException Unit)).1._stats.consecutive_successes =
          excludedCB._stats.consecutive_successes) ∧
      ((excludedCB.call 5 (Except.error validationError : Except PyException Unit)).1.state 5).1 =
        (excludedCB.state 5).1 ∧
      (excludedCB._state ≠ CircuitState.OPEN →
        (excludedCB.call 5 (Except.error validationError : Except PyException Unit)).1 = excludedCB)) :=
  ⟨by decide, by decide,
    call_excluded_exception_frame excludedCB 5 validationError (by decide) (by decide)⟩

/-! ## Theorems: load balancer -/

/-- A successful `List.lookup` comes from a binding in the list. -/
theorem lookup_mem {α : Type} (d : List (String × α)) (k : String) (v : α)
    (h : d.lookup k = some v) : (k, v) ∈ d := by
  induction d with
  | nil => simp [List.lookup] at h
  | cons hd tl ih =>
    obtain ⟨k0, v0⟩ := hd
    rw [List.lookup_cons] at h
    by_cases hk : k0 = k
    · subst hk
      simp at h
      subst h
      exact List.mem_cons_self _ _
    · have : (k == k0) = false := beq_false_of_ne (fun hh => hk hh.symm)
      rw [this] at h
      exact List.mem_cons_of_mem _ (ih h)

/-- Membership in `dictSet`: the new binding or an old one. -/
theorem mem_dictSet {α : Type} (d : List (String × α)) (k : String) (v : α)
    (e : String × α) (h : e ∈ dictSet d k v) : e = (k, v) ∨ e ∈ d := by
  induction d with
  | nil =>
    simp only [dictSet, List.mem_singleton] at h
    exact Or.inl h
  | cons hd tl ih =>
    simp only [dictSet] at h
    split at h
    next heq =>
      rcases List.mem_cons.mp h with h1 | h1
      · exact Or.inl (by rw [h1, heq])
      · exact Or.inr (List.mem_cons_of_mem hd h1)
    next =>
      rcases List.mem_cons.mp h with h1 | h1
      · exact Or.inr (h1 ▸ List.mem_cons_self hd tl)
      · rcases ih h1 with h2 | h2
        · exact Or.inl h2
        · exact Or.inr (List.mem_cons_of_mem hd h2)

/-- The source item `dict.get(k, 0)` of an all-nonnegative dict is nonnegative. -/
theorem dictGetD_nonneg (d : List (String × Int)) (k : String)
    (h : ∀ e ∈ d, 0 ≤ e.2) : 0 ≤ dictGetD d k 0 := by
  unfold dictGetD
  cases hl : d.lookup k with
  | none => exact le_refl 0
  | some v => exact h (k, v) (lookup_mem d k v hl)

/-- One bookkeeping call preserves nonnegativity of all active counters. -/
theorem applyLBOp_active_nonneg (lb : LoadBalancer) (op : LBOp)
    (h : ∀ e ∈ lb._active_requests, 0 ≤ e.2) :
    ∀ e ∈ (applyLBOp lb op)._active_requests, 0 ≤ e.2 := by
  cases op with
  | reqStart name =>
    intro e he
    simp only [applyLBOp, LoadBalancer.record_request_start] at he
    rcases mem_dictSet _ _ _ _ he with h1 | h1
    · subst h1
      have := dictGetD_nonneg lb._active_requests name h
      omega
    · exact h e h1
  | reqEnd name rt ok =>
    intro e he
    simp only [applyLBOp, LoadBalancer.record_request_end] at he
    split at he
    · rcases mem_dictSet _ _ _ _ he with h1 | h1
      · subst h1
        exact le_max_left 0 _
      · exact h e h1
    · exact h e he

/-- Nonnegativity after a whole sequence of bookkeeping calls. -/
theorem runLBOps_active_nonneg (ops : List LBOp) (lb : LoadBalancer)
    (h : ∀ e ∈ lb._active_requests, 0 ≤ e.2) :
    ∀ e ∈ (ops.foldl applyLBOp lb)._active_requests, 0 ≤ e.2 := by
  induction ops generalizing lb with
  | nil => exact h
  | cons op rest ih => exact ih (applyLBOp lb op) (applyLBOp_active_nonneg lb op h)

/-- C10: for every sequence of `record_request_start` / `record_request_end`
calls on a fresh load balancer, in any order and including ends with no
matching prior start, every per-provider active-request counter remains
nonnegative. -/
theorem active_request_counters_nonneg (ops : List LBOp) (name : String) :
    0 ≤ dictGetD ((ops.foldl applyLBOp {})._active_requests) name 0 :=
  dictGetD_nonneg _ name (runLBOps_active_nonneg ops {} (by simp))

/-! ## Theorems: orchestrator -/

/-- When the lane's breaker is OPEN with the recovery timeout not yet elapsed,
the guarded invocation raises `CircuitBreakerOpenError` immediately, without
consulting the answerer and without touching the breaker. -/
theorem call_envelope_open (cfg : OrchestratorConfig) (cb : CircuitBreaker) (now : Int)
    (answers : Nat → Except PyException AnswerAttempt)
    (hopen : cb._state = CircuitState.OPEN)
    (hne : now - cb._last_state_change < cb.config.recovery_timeout) :
    _call_with_timeout_and_retry cfg cb now answers =
      (cb, Except.error (AskError.circuit_open
        ⟨cb.config.name, max 0 (cb.config.recovery_timeout - (now - cb._last_state_change))⟩)) := by
  have hrec : cb._should_attempt_recovery now = false := by
    unfold CircuitBreaker._should_attempt_recovery
    simp only [decide_eq_false_iff_not, not_le]
    omega
  have hstate : cb.state now = (CircuitState.OPEN, cb) := by
    unfold CircuitBreaker.state
    simp [hopen, hrec]
  unfold _call_with_timeout_and_retry
  rw [hstate]
  rfl

/-- C2: for every `ask` request whose chosen lane's circuit breaker is OPEN
with the recovery timeout not yet elapsed, the orchestrator completes and
returns a response with `route.fallback_used = true` and provider
`"fallback"`, without ever invoking the lane answerer (the result is identical
for any two answerer oracles), and with no `CircuitBreakerOpenError` escaping
(`ask` is a total function into `AnswerResponse`). -/
theorem ask_circuit_open_fallback (env : OrchestratorEnv)
    (cb_on_device cb_cloud : CircuitBreaker)
    (answers answers2 : Nat → Except PyException AnswerAttempt)
    (req : AnswerRequest) (now : Int)
    (hopen : (laneBreaker (env.policy.decide req.source).lane cb_on_device cb_cloud)._state =
      CircuitState.OPEN)
    (hne : now - (laneBreaker (env.policy.decide req.source).lane cb_on_device cb_cloud)._last_state_change <
      (laneBreaker (env.policy.decide req.source).lane cb_on_device cb_cloud).config.recovery_timeout) :
    (OrchestratorService.ask env cb_on_device cb_cloud answers req now).1.route.fallback_used = true ∧
    (OrchestratorService.ask env cb_on_device cb_cloud answers req now).1.route.provider = "fallback" ∧
    OrchestratorService.ask env cb_on_device cb_cloud answers req now =
      OrchestratorService.ask env cb_on_device cb_cloud answers2 req now := by
  have h1 := call_envelope_open env.config _ now answers hopen hne
  have h2 := call_envelope_open env.config _ now answers2 hopen hne
  unfold OrchestratorService.ask
  simp [h1, h2, _fallback_from_rag]

/-- C2 witness: the theorem applied to a concrete OPEN breaker and two
different concrete answerer oracles. -/
theorem ask_circuit_open_fallback_witness :
    (laneBreaker (witnessEnv.policy.decide witnessReq.source).lane openCB cloudCB)._state =
      CircuitState.OPEN ∧
    100 - (laneBreaker (witnessEnv.policy.decide witnessReq.source).lane openCB cloudCB)._last_state_change <
      (laneBreaker (witnessEnv.policy.decide witnessReq.source).lane openCB cloudCB).config.recovery_timeout ∧
    ((OrchestratorService.ask witnessEnv openCB cloudCB failingAnswers witnessReq 100).1.route.fallback_used = true ∧
     (OrchestratorService.ask witnessEnv openCB cloudCB failingAnswers witnessReq 100).1.route.provider = "fallback" ∧
     OrchestratorService.ask witnessEnv openCB cloudCB failingAnswers witnessReq 100 =
       OrchestratorService.ask witnessEnv openCB cloudCB succeedingAnswers witnessReq 100) :=
  ⟨by decide, by decide,
    ask_circuit_open_fallback witnessEnv openCB cloudCB failingAnswers succeedingAnswers
      witnessReq 100 (by decide) (by decide)⟩

/-- A fold whose step preserves nonemptiness keeps a nonempty accumulator. -/
theorem foldl_ne_nil (step : PyStr → Citation → PyStr)
    (hstep : ∀ acc c, acc ≠ [] → step acc c ≠ []) (l : List Citation) (init : PyStr)
    (h : init ≠ []) : l.foldl step init ≠ [] := by
  induction l generalizing init with
  | nil => exact h
  | cons c rest ih => exact ih (step init c) (hstep init c h)

/-- The deterministic fallback is marked `"fallback"`, has a non-empty answer
text, and carries one citation per retrieved chunk. -/
theorem fallback_from_rag_shape (retriever : PyStr → Nat → List RetrievedChunk)
    (top_k : Nat) (question : PyStr) :
    (_fallback_from_rag retriever top_k question).provider = "fallback" ∧
    (_fallback_from_rag retriever top_k question).answer ≠ [] ∧
    (_fallback_from_rag retriever top_k question).citations =
      (retriever question top_k).map
        (fun c => { chunk_id := c.id, source := c.source, preview := _preview c.content 160 }) := by
  refine ⟨rfl, ?_, rfl⟩
  unfold _fallback_from_rag
  dsimp only
  refine foldl_ne_nil _ ?_ _ _ (by decide)
  intro acc c hacc
  simp only [ne_eq, List.append_eq_nil]
  intro h1
  exact absurd h1.1.1.1.1.1.1.1 hacc

/-- C4: when the chosen lane's guarded invocation returns an attempt that is
judged low-confidence (empty/short after trim+lowercase, or containing an
uncertainty marker) — or, on the on-device grounded lane, carries zero
citations — the `ask` response has `route.fallback_used = true`, provider
`"fallback"`, a non-empty answer, and non-empty citations, provided the
retriever returns at least one chunk for the question. -/
theorem ask_low_confidence_fallback (env : OrchestratorEnv)
    (cb_on_device cb_cloud : CircuitBreaker)
    (answers : Nat → Except PyException AnswerAttempt)
    (req : AnswerRequest) (now : Int) (attempt : AnswerAttempt) (cb2 : CircuitBreaker)
    (hcall : _call_with_timeout_and_retry env.config
        (laneBreaker (env.policy.decide req.source).lane cb_on_device cb_cloud) now answers =
      (cb2, Except.ok attempt))
    (hlow : _looks_low_confidence attempt.answer = true ∨
      ((env.policy.decide req.source).lane = Lane.on_device_rag ∧ attempt.citations = []))
    (hchunks : env.retriever req.question env.top_k ≠ []) :
    (OrchestratorService.ask env cb_on_device cb_cloud answers req now).1.route.fallback_used = true ∧
    (OrchestratorService.ask env cb_on_device cb_cloud answers req now).1.route.provider = "fallback" ∧
    (OrchestratorService.ask env cb_on_device cb_cloud answers req now).1.answer ≠ [] ∧
    (OrchestratorService.ask env cb_on_device cb_cloud answers req now).1.citations ≠ [] := by
  obtain ⟨hprov, hans, hcit⟩ :=
    fallback_from_rag_shape env.retriever env.top_k req.question
  have hlowtrue :
      (if ((env.policy.decide req.source).lane == Lane.on_device_rag &&
            attempt.citations.isEmpty) = true then true
       else _looks_low_confidence attempt.answer) = true := by
    rcases hlow with h | ⟨hlane, hcits⟩
    · split <;> simp [h]
    · simp [hlane, hcits]
  unfold OrchestratorService.ask
  simp only [hcall, hlowtrue, if_true]
  refine ⟨trivial, hprov, hans, ?_⟩
  rw [hcit]
  simp only [ne_eq, List.map_eq_nil_iff]
  exact hchunks

/-- C4 witness: the theorem applied to a concrete environment whose answerer
returns a short (low-confidence) attempt and whose retriever returns one
chunk. -/
theorem ask_low_confidence_fallback_witness :
    _call_with_timeout_and_retry witnessEnv.config
        (laneBreaker (witnessEnv.policy.decide witnessReq.source).lane cloudCB cloudCB) 100
        succeedingAnswers =
      ((laneBreaker (witnessEnv.policy.decide witnessReq.source).lane cloudCB cloudCB)._record_success 100,
        Except.ok witnessAttempt) ∧
    _looks_low_confidence witnessAttempt.answer = true ∧
    witnessEnv.retriever witnessReq.question witnessEnv.top_k ≠ [] ∧
    ((OrchestratorService.ask witnessEnv cloudCB cloudCB succeedingAnswers witnessReq 100).1.route.fallback_used = true ∧
     (OrchestratorService.ask witnessEnv cloudCB cloudCB succeedingAnswers witnessReq 100).1.route.provider = "fallback" ∧
     (OrchestratorService.ask witnessEnv cloudCB cloudCB succeedingAnswers witnessReq 100).1.answer ≠ [] ∧
     (OrchestratorService.ask witnessEnv cloudCB cloudCB succeedingAnswers witnessReq 100).1.citations ≠ []) :=
  ⟨rfl, by decide, by decide,
    ask_low_confidence_fallback witnessEnv cloudCB cloudCB succeedingAnswers witnessReq 100
      witnessAttempt
      ((laneBreaker (witnessEnv.policy.decide witnessReq.source).lane cloudCB cloudCB)._record_success 100)
      rfl (Or.inl (by decide)) (by decide)⟩

/-! ## Theorems: dynamic router -/

/-- C3: `route` raises the "no providers configured" error iff the provider
registry is empty; with at least one registered provider it always returns a
decision; and when the filtering pipeline leaves no candidates, the decision
degrades to the first registered provider with score infinity. -/
theorem route_error_iff_empty_registry (r : DynamicRouter) (bs : String → CircuitState)
    (input_text : PyStr) (strategy : Option RoutingStrategy)
    (caps excl : Option (List String)) (rid : Option String) :
    ((r.route bs input_text strategy caps excl rid).2 =
        Except.error "No LLM providers configured" ↔ r._providers = []) ∧
    (∀ p ps, r._providers = p :: ps →
      ∃ d, (r.route bs input_text strategy caps excl rid).2 = Except.ok d) ∧
    (r._filter_providers bs caps excl = [] →
      ∀ p ps, r._providers = p :: ps →
      (r.route bs input_text strategy caps excl rid).2 = Except.ok
        { provider := p
          strategy_used := strategy.getD r._default_strategy
          score := .inf
          reason := "No available providers, using fallback"
          request_id := rid }) := by
  unfold DynamicRouter.route
  rcases hf : r._filter_providers bs caps excl with _ | ⟨c, cs⟩
  · rcases hp : r._providers with _ | ⟨p, ps⟩
    · simp [hp]
    · simp [hp]
  · have hmem : c ∈ r._providers := by
      have hc : c ∈ r._filter_providers bs caps excl := by
        rw [hf]; exact List.mem_cons_self _ _
      unfold DynamicRouter._filter_providers at hc
      exact List.mem_of_mem_filter hc
    rcases hp : r._providers with _ | ⟨p, ps⟩
    · rw [hp] at hmem
      simp at hmem
    · rw [hp] at hmem
      simp [hf]

/-- C3 witness: a nonempty registry whose filtering leaves no candidate routes
to the first registered provider with infinite score. -/
theorem route_error_iff_empty_registry_witness :
    witnessRouter._filter_providers (fun _ => CircuitState.CLOSED) none none = [] ∧
    witnessRouter._providers = [offlineProvider] ∧
    (witnessRouter.route (fun _ => CircuitState.CLOSED) [] none none none none).2 = Except.ok
      { provider := offlineProvider
        strategy_used := RoutingStrategy.balanced
        score := .inf
        reason := "No available providers, using fallback"
        request_id := none } :=
  ⟨by decide, rfl,
    (route_error_iff_empty_registry witnessRouter (fun _ => CircuitState.CLOSED) [] none
        none none none).2.2 (by decide) offlineProvider [] rfl⟩

/-- With every provider available, one round-robin step picks index
`(index + 1) % k` and stores it back. -/
theorem select_round_robin_all_available (lb : LoadBalancer) (a : ProviderConfig)
    (rest : List ProviderConfig)
    (hav : (a :: rest).filter (fun p => p.is_available) = a :: rest) :
    lb.select_round_robin (a :: rest) =
      (some ((a :: rest).getD ((lb._round_robin_index + 1) % (a :: rest).length) a),
        { lb with _round_robin_index := (lb._round_robin_index + 1) % (a :: rest).length }) := by
  unfold LoadBalancer.select_round_robin
  rw [hav]

/-- With every provider available, the selections of `n` round-robin steps
from index `i` are exactly the providers at indices `(i + 1 + j) % k` for
`j < n`. -/
theorem rrRun_selections (a : ProviderConfig) (rest : List ProviderConfig)
    (hav : (a :: rest).filter (fun p => p.is_available) = a :: rest)
    (n : Nat) (lb : LoadBalancer) :
    (rrRun lb (a :: rest) n).2 =
      (List.range n).map
        (fun j => (a :: rest).getD ((lb._round_robin_index + 1 + j) % (a :: rest).length) a) := by
  induction n generalizing lb with
  | zero => rfl
  | succ n ih =>
    rw [rrRun, select_round_robin_all_available lb a rest hav]
    simp only
    rw [ih]
    rw [List.range_succ_eq_map]
    simp only [List.map_cons, List.map_map, Nat.add_zero]
    congr 1
    refine List.map_congr_left ?_
    intro j hj
    simp only [Function.comp_apply]
    have h1 : (lb._round_robin_index + 1) % (a :: rest).length + 1 + j =
        (lb._round_robin_index + 1) % (a :: rest).length + (1 + j) := by omega
    rw [h1, Nat.mod_add_mod]
    have h2 : lb._round_robin_index + 1 + (1 + j) = lb._round_robin_index + 1 + (j + 1) := by
      omega
    rw [h2]

/-- Over one full cycle of `k` consecutive values, each residue mod `k` is hit
exactly once. -/
theorem countP_mod_range_one (k c m : Nat) (hk : 0 < k) (hm : m < k) :
    (List.range k).countP (fun j => (c + j) % k == m) = 1 := by
  have hinj : ∀ x ∈ List.range k, ∀ y ∈ List.range k,
      (c + x) % k = (c + y) % k → x = y := by
    intro x hx y hy hxy
    have hx' := List.mem_range.mp hx
    have hy' := List.mem_range.mp hy
    have : x % k = y % k := Nat.ModEq.add_left_cancel' c hxy
    rwa [Nat.mod_eq_of_lt hx', Nat.mod_eq_of_lt hy'] at this
  have hnodup : ((List.range k).map (fun j => (c + j) % k)).Nodup :=
    (List.nodup_range k).map_on hinj
  have hsub : ((List.range k).map (fun j => (c + j) % k)) ⊆ List.range k := by
    intro x hx
    rcases List.mem_map.mp hx with ⟨j, _, rfl⟩
    exact List.mem_range.mpr (Nat.mod_lt _ hk)
  have hperm : ((List.range k).map (fun j => (c + j) % k)).Perm (List.range k) :=
    (List.subperm_of_subset hnodup hsub).perm_of_length_le (by simp)
  have hcount : ((List.range k).map (fun j => (c + j) % k)).count m = 1 := by
    rw [hperm.count_eq]
    exact List.count_eq_one_of_mem (List.nodup_range k) (List.mem_range.mpr hm)
  rw [List.count, List.countP_map] at hcount
  simpa [Function.comp] using hcount

/-- Over two full cycles, each residue is hit exactly twice. -/
theorem countP_mod_range_two (k c m : Nat) (hk : 0 < k) (hm : m < k) :
    (List.range (2 * k)).countP (fun j => (c + j) % k == m) = 2 := by
  have h2 : 2 * k = k + k := by ring
  rw [h2, List.range_add, List.countP_append, List.countP_map]
  have hshift : ((fun j => (c + j) % k == m) ∘ (k + ·)) = (fun j => (c + j) % k == m) := by
    funext j
    simp only [Function.comp_apply]
    rw [show c + (k + j) = c + j + k by omega, Nat.add_mod_right]
  rw [hshift, countP_mod_range_one k c m hk hm]

/-- C9: starting from any round-robin index, `2k` consecutive round-robin
selections over a fixed list of `k` available providers (no availability,
registration, or ordering changes between calls, provider names unique as the
registry guarantees) select each provider exactly twice. -/
theorem round_robin_fairness (providers : List ProviderConfig) (i0 : Nat)
    (hav : providers.filter (fun p => p.is_available) = providers)
    (hnames : (providers.map (fun p => p.name)).Nodup)
    (p : ProviderConfig) (hp : p ∈ providers) :
    ((rrRun { _round_robin_index := i0 } providers (2 * providers.length)).2).count p = 2 := by
  rcases providers with _ | ⟨a, rest⟩
  · simp at hp
  have hnd : (a :: rest).Nodup := hnames.of_map
  obtain ⟨⟨ip, hip⟩, hgot⟩ := List.mem_iff_get.mp hp
  have hk : 0 < (a :: rest).length := Nat.succ_pos _
  rw [rrRun_selections a rest hav (2 * (a :: rest).length) { _round_robin_index := i0 }]
  rw [List.count, List.countP_map]
  have hpt : ((fun x => x == p) ∘
      (fun j => (a :: rest).getD ((i0 + 1 + j) % (a :: rest).length) a)) =
      (fun j => (i0 + 1 + j) % (a :: rest).length == ip) := by
    funext j
    simp only [Function.comp_apply]
    have hlt : (i0 + 1 + j) % (a :: rest).length < (a :: rest).length := Nat.mod_lt _ hk
    rw [List.getD_eq_get (a :: rest) a hlt]
    by_cases h : (i0 + 1 + j) % (a :: rest).length = ip
    · have hfin : (⟨(i0 + 1 + j) % (a :: rest).length, hlt⟩ : Fin (a :: rest).length) =
        ⟨ip, hip⟩ := Fin.ext h
      rw [hfin, hgot, h]
      simp
    · have hne : (a :: rest).get ⟨(i0 + 1 + j) % (a :: rest).length, hlt⟩ ≠ p := by
        intro he
        apply h
        have hfin := hnd.get_inj_iff.mp (he.trans hgot.symm)
        exact congrArg Fin.val hfin
      rw [beq_false_of_ne hne, beq_false_of_ne h]
  rw [hpt]
  exact countP_mod_range_two (a :: rest).length (i0 + 1) ip hk hip

/-- C9 witness: four consecutive selections over two available providers,
starting from index 5, pick provider "a" exactly twice. -/
theorem round_robin_fairness_witness :
    [rrProviderA, rrProviderB].filter (fun p => p.is_available) = [rrProviderA, rrProviderB] ∧
    ([rrProviderA, rrProviderB].map (fun p => p.name)).Nodup ∧
    rrProviderA ∈ [rrProviderA, rrProviderB] ∧
    ((rrRun { _round_robin_index := 5 } [rrProviderA, rrProviderB]
        (2 * [rrProviderA, rrProviderB].length)).2).count rrProviderA = 2 :=
  ⟨by decide, by decide, by decide,
    round_robin_fairness [rrProviderA, rrProviderB] 5 (by decide) (by decide)
      rrProviderA (by decide)⟩

/-- A stable sort puts an element with strictly smallest key first. -/
theorem insertionSort_head_unique_min {α : Type} (key : α → Int) (l : List α) (x : α)
    (hx : x ∈ l) (hmin : ∀ y ∈ l, y ≠ x → key x < key y) :
    ∃ t, List.insertionSort (fun a b => key a ≤ key b) l = x :: t := by
  have htot : IsTotal α (fun a b => key a ≤ key b) := ⟨fun a b => le_total (key a) (key b)⟩
  have htrans : IsTrans α (fun a b => key a ≤ key b) :=
    ⟨fun _ _ _ hab hbc => le_trans hab hbc⟩
  have hsorted := @List.sorted_insertionSort α (fun a b => key a ≤ key b) _ htot htrans l
  have hperm := List.perm_insertionSort (fun a b => key a ≤ key b) l
  rcases hs : List.insertionSort (fun a b => key a ≤ key b) l with _ | ⟨h0, t⟩
  · exfalso
    have hxmem := hperm.mem_iff.mpr hx
    rw [hs] at hxmem
    simp at hxmem
  · refine ⟨t, ?_⟩
    by_cases he : h0 = x
    · rw [he]
    · exfalso
      have hh0l : h0 ∈ l := hperm.mem_iff.mp (hs ▸ List.mem_cons_self h0 t)
      have hxs : x ∈ h0 :: t := hs ▸ hperm.mem_iff.mpr hx
      have hxt : x ∈ t := by
        rcases List.mem_cons.mp hxs with h | h
        · exact absurd h.symm he
        · exact h
      have hle : key h0 ≤ key x := List.rel_of_sorted_cons (hs ▸ hsorted) x hxt
      have hlt : key x < key h0 := hmin h0 hh0l he
      omega

/-- The source item `_filter_providers` keeps every enabled, under-limit provider without a
circuit-breaker name, when no capabilities or exclusions are requested. -/
theorem filter_providers_all (r : DynamicRouter) (bs : String → CircuitState)
    (h : ∀ p ∈ r._providers,
      p.enabled = true ∧ p.current_rpm < p.rate_limit_rpm ∧ p.circuit_breaker_name = none) :
    r._filter_providers bs none none = r._providers := by
  unfold DynamicRouter._filter_providers
  rw [List.filter_eq_self]
  intro p hp
  obtain ⟨h1, h2, h3⟩ := h p hp
  simp [h1, h3, ProviderConfig.is_available, Nat.not_le.mpr h2]

/-- The source item `rank_by_cost` keeps every available provider. -/
theorem availability_filter_all (l : List ProviderConfig)
    (h : ∀ p ∈ l, p.enabled = true ∧ p.current_rpm < p.rate_limit_rpm) :
    l.filter (fun p => p.is_available) = l := by
  rw [List.filter_eq_self]
  intro p hp
  obtain ⟨h1, h2⟩ := h p hp
  simp [ProviderConfig.is_available, h1, Nat.not_le.mpr h2]

/-- C6 counterexample: with candidate costs [0.03, 0.0, 0.01] and the
0.0-provider of type OPENAI registered last, `route` under `cost_optimized`
selects the 0.01-provider "C", not the 0.0-provider "B":
`get_cost_per_1k` replaces a configured cost of 0.0 by the provider-type
default (0.01 for OPENAI), producing a tie that the stable sort resolves in
registration order. -/
theorem cost_zero_provider_counterexample :
    (match (DynamicRouter.route
        { _providers := [costProviderA .OLLAMA, costProviderC .OLLAMA, costProviderB .OPENAI] }
        (fun _ => CircuitState.CLOSED) ("text").toList
        (some .cost_optimized) none none none).2 with
      | .ok d => d.provider.name
      | .error _ => "error") = "C" ∧
    (costProviderB ProviderType.OPENAI).cost_per_1k_tokens = 0 ∧
    (costProviderC ProviderType.OLLAMA).cost_per_1k_tokens ≠ 0 := by
  refine ⟨?_, rfl, by decide⟩
  decide

/-- C6 (amended): under `cost_optimized` with three candidates of configured
costs [0.03, 0.0, 0.01], the 0.0-configured provider is selected first in any
registration order and for any provider types, **provided** the 0.0-provider's
type default cost (which `get_cost_per_1k` substitutes for a configured 0.0)
is strictly below 0.01; and for two providers A(cost=0.03), B(cost=0.0),
`Route(text, cost_optimized)` returns B with `alternatives=[A]` in both
registration orders and for every provider type of B. -/
theorem cost_zero_provider_selected_amended (tA tB tC : ProviderType) (input_text : PyStr)
    (l : List ProviderConfig)
    (ht : DEFAULT_COSTS tB < 10000)
    (hperm : l.Perm [costProviderA tA, costProviderB tB, costProviderC tC]) :
    (∃ d, (DynamicRouter.route { _providers := l } (fun _ => CircuitState.CLOSED)
        input_text (some .cost_optimized) none none none).2 = Except.ok d ∧
      d.provider = costProviderB tB) ∧
    (∀ t : ProviderType, ∀ l2 : List ProviderConfig,
      (l2 = [costProviderA .OLLAMA, costProviderB t] ∨
       l2 = [costProviderB t, costProviderA .OLLAMA]) →
      (match (DynamicRouter.route { _providers := l2 } (fun _ => CircuitState.CLOSED)
          ("text").toList (some .cost_optimized) none none none).2 with
        | .ok d => (d.provider.name, d.alternatives)
        | .error _ => ("error", [])) = ("B", ["A"])) := by
  constructor
  · -- the three-provider universal part
    obtain ⟨c, cs, rfl⟩ : ∃ c cs, l = c :: cs := by
      rcases l with _ | ⟨c, cs⟩
      · simpa using hperm.length_eq
      · exact ⟨c, cs, rfl⟩
    have hfields : ∀ p ∈ (c :: cs),
        p.enabled = true ∧ p.current_rpm < p.rate_limit_rpm ∧ p.circuit_breaker_name = none := by
      intro p hp
      have h3 : p = costProviderA tA ∨ p = costProviderB tB ∨ p = costProviderC tC := by
        simpa using hperm.mem_iff.mp hp
      rcases h3 with rfl | rfl | rfl <;> refine ⟨rfl, ?_, rfl⟩ <;>
        simp [costProviderA, costProviderB, costProviderC]
    have hfi : DynamicRouter._filter_providers { _providers := c :: cs }
        (fun _ => CircuitState.CLOSED) none none = c :: cs :=
      filter_providers_all _ _ hfields
    have havail : (c :: cs).filter (fun p => p.is_available) = c :: cs :=
      availability_filter_all _ (fun p hp => ⟨(hfields p hp).1, (hfields p hp).2.1⟩)
    -- the 0.0-provider has the strictly smallest estimated cost
    have hBmem : costProviderB tB ∈ (c :: cs) := hperm.mem_iff.mpr (by simp)
    have hm : (0 : Int) < ((estimate_tokens input_text + 500 : Nat) : Int) := by
      have : 0 < estimate_tokens input_text + 500 := by omega
      exact_mod_cast this
    have hrank : ∃ rest, rank_by_cost [] (c :: cs) input_text =
        (costProviderB tB, estimate_cost [] (costProviderB tB) input_text 500) :: rest := by
      unfold rank_by_cost
      rw [havail]
      refine insertionSort_head_unique_min
        (fun pe : ProviderConfig × CostEstimate => pe.2.estimated_cost) _ _
        (List.mem_map_of_mem (fun p => (p, estimate_cost [] p input_text 500)) hBmem) ?_
      intro y hy hyne
      rcases List.mem_map.mp hy with ⟨q, hq, rfl⟩
      have hcpkB : get_cost_per_1k [] (costProviderB tB) = DEFAULT_COSTS tB := by
        unfold get_cost_per_1k costProviderB
        simp
      have h3 : q = costProviderA tA ∨ q = costProviderB tB ∨ q = costProviderC tC := by
        simpa using hperm.mem_iff.mp hq
      rcases h3 with rfl | rfl | rfl
      · -- q = A
        simp only [estimate_cost, hcpkB]
        have hcpkA : get_cost_per_1k [] (costProviderA tA) = 30000 := by
          unfold get_cost_per_1k costProviderA
          simp
        rw [hcpkA]
        exact mul_lt_mul_of_pos_left (by omega) hm
      · -- q = B: contradicts y ≠ x
        exact absurd rfl hyne
      · -- q = C
        simp only [estimate_cost, hcpkB]
        have hcpkC : get_cost_per_1k [] (costProviderC tC) = 10000 := by
          unfold get_cost_per_1k costProviderC
          simp
        rw [hcpkC]
        exact mul_lt_mul_of_pos_left (by omega) hm
    obtain ⟨rest, hrank⟩ := hrank
    refine ⟨{ provider := costProviderB tB
              strategy_used := .cost_optimized
              score := .val ((estimate_cost [] (costProviderB tB) input_text 500).estimated_cost : ℚ)
              alternatives := (rest.take 3).map (fun pe => pe.1.name)
              reason := "Lowest cost"
              request_id := none }, ?_, rfl⟩
    unfold DynamicRouter.route
    rw [hfi]
    unfold DynamicRouter._select_provider DynamicRouter._select_by_cost
    dsimp only [Option.getD]
    rw [hrank]
  · -- the two-provider scenario, for every type of B and both orders
    intro t l2 horder
    rcases horder with rfl | rfl <;> cases t <;> decide

/-- C6 witness: the amended theorem applied to a concrete registration order
(B of type BEDROCK, default cost 0.002 < 0.01, registered first). -/
theorem cost_zero_provider_selected_amended_witness :
    DEFAULT_COSTS ProviderType.BEDROCK < 10000 ∧
    ([costProviderB .BEDROCK, costProviderC .VERTEX_AI, costProviderA .OLLAMA].Perm
      [costProviderA .OLLAMA, costProviderB .BEDROCK, costProviderC .VERTEX_AI]) ∧
    ((∃ d, (DynamicRouter.route
        { _providers := [costProviderB .BEDROCK, costProviderC .VERTEX_AI, costProviderA .OLLAMA] }
        (fun _ => CircuitState.CLOSED) ("text").toList
        (some .cost_optimized) none none none).2 = Except.ok d ∧
      d.provider = costProviderB .BEDROCK) ∧
    (∀ t : ProviderType, ∀ l2 : List ProviderConfig,
      (l2 = [costProviderA .OLLAMA, costProviderB t] ∨
       l2 = [costProviderB t, costProviderA .OLLAMA]) →
      (match (DynamicRouter.route { _providers := l2 } (fun _ => CircuitState.CLOSED)
          ("text").toList (some .cost_optimized) none none none).2 with
        | .ok d => (d.provider.name, d.alternatives)
        | .error _ => ("error", [])) = ("B", ["A"]))) :=
  ⟨by decide, by decide,
    cost_zero_provider_selected_amended .OLLAMA .BEDROCK .VERTEX_AI ("text").toList
      [costProviderB .BEDROCK, costProviderC .VERTEX_AI, costProviderA .OLLAMA]
      (by decide) (by decide)⟩
